import Mathlib

/-!
Verification of the go-server repository's request-lifecycle core:
the student creation handler (`internal/http/handllers/students/students.go`),
the response encoder (`internal/utills/response`), the sqlite-backed storage
(`internal/storage/sqlite`) and the graceful-shutdown sequence of `main`.

The Go code is shallowly embedded: pure helpers become Lean functions, the
`http.ResponseWriter` becomes an explicit record of headers/status/body, the
storage handle becomes explicit state passing, and the behaviour of the
external libraries the code calls (`encoding/json`, `go-playground/validator`,
`net/http`, the sqlite engine) is modelled from their documented contracts at
the points where the repository uses them.
-/

namespace GoServer

/-! ## Data model: `internal/types/types.go`

`Student` carries `Name` (tag `validate:"required"`), `Email`
(`validate:"required,email"`) and `Age` (`validate:"required,gte=1,lte=100"`).
Go `int` and `int64` are modelled as `Int` (no arithmetic in the code ever
approaches the 64-bit bound). -/

structure Student where
  name : String
  email : String
  age : Int
deriving DecidableEq, Repr

/-! ## Validator: `go-playground/validator` applied to the `Student` tags

The library checks every field of the struct in declaration order and, for
each field, evaluates that field's tags in order, recording one `FieldError`
(with `ActualTag()` equal to the first failing tag) per offending field. It
does not stop at the first offending field. For strings `required` fails
exactly on the empty string; for ints `required` fails exactly on zero;
`gte=1` / `lte=100` compare numerically; `email` applies the library's
address-syntax regex, modelled structurally below. -/

/-- Split a character list at the first occurrence of `sep`; `none` when
`sep` does not occur. -/
def breakAt (sep : Char) : List Char → Option (List Char × List Char)
  | [] => none
  | c :: cs =>
      if c = sep then some ([], cs)
      else (breakAt sep cs).map (fun p => (c :: p.1, p.2))

/-- Model of the validator library's `email` tag check: exactly one `@`
separating a nonempty local part from a domain that contains a dot and does
not begin or end with one. This is the structural core of the library's
address regex; the claims below depend only on membership of concrete
addresses on each side. -/
def emailOk (s : String) : Bool :=
  match breakAt '@' s.data with
  | some (lp, dom) =>
      !lp.isEmpty && !dom.isEmpty && !dom.contains '@' && dom.contains '.' &&
        !(dom.head? == some '.') && !(dom.getLast? == some '.')
  | none => false

/-- One field-level violation, as the validator library reports it:
the struct field's name and the first failing tag (`ActualTag()`). -/
structure FieldError where
  field : String
  actualTag : String
deriving DecidableEq, Repr

/-- `validator.New().Struct(student)` on `types.Student`: the ordered list of
field-level violations (empty list models a `nil` error). Fields are checked
independently, in declaration order; per field the first failing tag wins. -/
def validateStudent (s : Student) : List FieldError :=
  (if s.name = "" then [⟨"Name", "required"⟩] else []) ++
  (if s.email = "" then [⟨"Email", "required"⟩]
   else if emailOk s.email then [] else [⟨"Email", "email"⟩]) ++
  (if s.age = 0 then [⟨"Age", "required"⟩]
   else if s.age < 1 then [⟨"Age", "gte"⟩]
   else if 100 < s.age then [⟨"Age", "lte"⟩] else [])

/-- `true` iff the `Name` field violates its constraints (`required`). -/
def nameViolated (s : Student) : Bool := s.name = ""

/-- `true` iff the `Email` field violates its constraints (`required,email`). -/
def emailViolated (s : Student) : Bool := s.email = "" || !emailOk s.email

/-- `true` iff the `Age` field violates its constraints
(`required,gte=1,lte=100`): zero fails `required`, so precisely the ages
outside `[1,100]` are violations. -/
def ageViolated (s : Student) : Bool := s.age < 1 || 100 < s.age

/-! ## Go error values

The error values that reach `response.WriteJson(w, 500, err)` in the handler
are written to the wire by `encoding/json`, whose output depends on the
error's concrete type: a `*errors.errorString` / `*fmt.wrapError` (from
`errors.New` / `fmt.Errorf`) has no exported fields and serializes as the
empty object, while the sqlite driver's `sqlite3.Error` has exported `Code`,
`ExtendedCode` and `SystemErrno` fields that serialize as numbers. -/

/-- A Go `error` value as it matters to this program: its `Error()` message
plus the concrete-type data that `encoding/json` can see. -/
inductive GoErr
  /-- `errors.New` / `fmt.Errorf` style error: unexported fields only. -/
  | errorString (msg : String)
  /-- `mattn/go-sqlite3`'s `sqlite3.Error`: exported numeric
  `Code`, `ExtendedCode`, `SystemErrno` plus an unexported message. -/
  | sqliteErr (code extendedCode systemErrno : Nat) (msg : String)
deriving DecidableEq, Repr

/-- `err.Error()`. -/
def GoErr.message : GoErr → String
  | .errorString m => m
  | .sqliteErr _ _ _ m => m

/-- `encoding/json` serialization of the bare error value (no trailing
newline; `json.Encoder.Encode` appends one, handled at the writer). -/
def encodeGoErr : GoErr → String
  | .errorString _ => "\x7b\x7d"
  | .sqliteErr c e s _ =>
      "\x7b\"Code\":" ++ toString c ++ ",\"ExtendedCode\":" ++ toString e ++
        ",\"SystemErrno\":" ++ toString s ++ "\x7d"

/-! ## Response package: `internal/utills/response` -/

def StatusOk : String := "OK"

def StatusError : String := "Error"

/-- `response.Response` struct (two exported string fields). -/
structure Response where
  Status : String
  Error : String
deriving DecidableEq, Repr

/-- `response.GeneralError(err)` — takes the error's `Error()` message. -/
def GeneralError (msg : String) : Response :=
  ⟨StatusError, msg⟩

/-- The message built for one entry of `validator.ValidationErrors` in
`response.ValidationError`: a switch on `err.ActualTag()` whose first case is
the literal string `"requried"` (sic, as in the source). -/
def fieldErrMsg (e : FieldError) : String :=
  match e.actualTag with
  | "requried" => "field " ++ e.field ++ " is requried filed"
  | _ => "field " ++ e.field ++ " is invalid"

/-- `response.ValidationError(errs)`: one message per field error, joined
with `","`. -/
def ValidationError (errs : List FieldError) : Response :=
  ⟨StatusError, String.intercalate "," (errs.map fieldErrMsg)⟩

/-! ## Decimal printing and parsing

`encoding/json` writes a Go `int64` as its exact decimal digits. The printer
below models that serialization; the parser models decoding the body back
into an integer target (claim C9's round trip). -/

/-- The character for one decimal digit (digits ≥ 9 clamp to `'9'`;
only called with `d < 10`). -/
def digitChar (d : Nat) : Char :=
  match d with
  | 0 => '0' | 1 => '1' | 2 => '2' | 3 => '3' | 4 => '4'
  | 5 => '5' | 6 => '6' | 7 => '7' | 8 => '8' | _ => '9'

/-- The numeric value of one decimal digit character, `none` otherwise. -/
def digitVal (c : Char) : Option Nat :=
  if '0' ≤ c && c ≤ '9' then some (c.toNat - '0'.toNat) else none

/-- Decimal digits with explicit fuel (structural recursion, so concrete
terms evaluate inside the kernel); with fuel above `n` the fuel never runs
out. -/
def natDigitsAux : Nat → Nat → List Char
  | 0, _ => []
  | fuel + 1, n =>
      if n < 10 then [digitChar n]
      else natDigitsAux fuel (n / 10) ++ [digitChar (n % 10)]

/-- Decimal digits of a natural number, most significant first. -/
def natDigits (n : Nat) : List Char := natDigitsAux (n + 1) n

/-- Accumulating decimal parser over a digit list. -/
def parseNatAux (acc : Nat) : List Char → Option Nat
  | [] => some acc
  | c :: cs =>
      match digitVal c with
      | some d => parseNatAux (acc * 10 + d) cs
      | none => none

/-- Parse a nonempty string of decimal digits. -/
def parseNat (l : List Char) : Option Nat :=
  match l with
  | [] => none
  | _ => parseNatAux 0 l

/-- Decimal representation of a Go integer, as `encoding/json` writes it. -/
def intRepr (i : Int) : List Char :=
  if i < 0 then '-' :: natDigits i.natAbs else natDigits i.toNat

/-- Parse an optionally `'-'`-signed decimal integer. -/
def parseInt (l : List Char) : Option Int :=
  match l with
  | [] => none
  | c :: rest =>
      if c = '-' then (parseNat rest).map (fun n => -(n : Int))
      else (parseNat l).map (fun n => (n : Int))

/-- Remove a literal leading character sequence; `none` when the input does
not start with it. -/
def stripLeading : List Char → List Char → Option (List Char)
  | [], l => some l
  | _ :: _, [] => none
  | p :: ps, c :: cs => if c = p then stripLeading ps cs else none

/-- Remove a literal trailing character sequence; `none` when the input does
not end with it. -/
def stripTrailing (sfx l : List Char) : Option (List Char) :=
  (stripLeading sfx.reverse l.reverse).map List.reverse

/-! ## Response writer and `response.WriteJson`

An `http.ResponseWriter` is modelled by what the caller can observe on the
wire: the content-type header, the status line (the first `WriteHeader`
wins; later calls are superfluous and ignored, as `net/http` does), and the
body bytes written so far. -/

/-- Observable state of an `http.ResponseWriter`. -/
structure ResponseWriter where
  contentType : Option String
  statusCode : Option Nat
  body : String
deriving DecidableEq, Repr

/-- A fresh response writer: nothing written yet. -/
def ResponseWriter.init : ResponseWriter := ⟨none, none, ""⟩

/-- `w.Header().Set("Content-Type", v)`: effective only before the status
line has been written. -/
def setContentType (w : ResponseWriter) (v : String) : ResponseWriter :=
  if w.statusCode.isSome then w else { w with contentType := some v }

/-- `w.WriteHeader(status)`: the first call fixes the status; later calls
are ignored. -/
def writeHeader (w : ResponseWriter) (status : Nat) : ResponseWriter :=
  if w.statusCode.isSome then w else { w with statusCode := some status }

/-- The payload values this program passes to `WriteJson`. -/
inductive Payload
  /-- a `response.Response` struct -/
  | responseBody (r : Response)
  /-- `map[string]int64\x7b"id": id\x7d` — the success body -/
  | idBody (id : Int)
  /-- a bare `error` value (the storage-error path passes `err` itself) -/
  | errBody (e : GoErr)
  /-- a value `encoding/json` cannot encode (e.g. a channel, as in the
  repository's `WriteJson` test) -/
  | unencodable
deriving DecidableEq, Repr

/-- Minimal JSON string quoting; every string this program serializes is
free of characters needing escapes. -/
def jsonQuote (s : String) : String := "\"" ++ s ++ "\""

/-- The exact body of the success response `\x7b"id": id\x7d` as
`json.Encoder.Encode` writes it (compact object plus trailing newline). -/
def encodeIdBody (id : Int) : String :=
  "\x7b\"id\":" ++ String.mk (intRepr id) ++ "\x7d\n"

/-- `json.Encoder.Encode(data)`'s output for each payload this program
writes: `some` bytes (with the encoder's trailing newline), or `none` when
the value is not representable, in which case the encoder writes nothing. -/
def encodePayload : Payload → Option String
  | .responseBody r =>
      some ("\x7b\"Status\":" ++ jsonQuote r.Status ++ ",\"Error\":" ++
        jsonQuote r.Error ++ "\x7d\n")
  | .idBody id => some (encodeIdBody id)
  | .errBody e => some (encodeGoErr e ++ "\n")
  | .unencodable => none

/-- The characters before the identifier in the success body. -/
def idBodyOpen : List Char := "\x7b\"id\":".data

/-- The characters after the identifier in the success body. -/
def idBodyClose : List Char := "\x7d\n".data

/-- Decode the success-response body back into the identifier, as a client
(or Go's `json.Unmarshal` into an `int64` target) reads it: strip the fixed
object frame and parse the decimal integer. -/
def decodeIdBody (s : String) : Option Int :=
  (stripLeading idBodyOpen s.data).bind fun t =>
    (stripTrailing idBodyClose t).bind fun m => parseInt m

/-- `response.WriteJson(w, status, data)`: sets the content type, writes the
status line, then attempts serialization; the returned `Bool` is `true` iff
an error value is returned to the caller (encode failure, no body bytes
written). -/
def WriteJson (w : ResponseWriter) (status : Nat) (data : Payload) :
    ResponseWriter × Bool :=
  let w1 := setContentType w "application/json"
  let w2 := writeHeader w1 status
  match encodePayload data with
  | some bytes => ({ w2 with body := w2.body ++ bytes }, false)
  | none => (w2, true)

/-- Run a sequence of `WriteJson` calls against a writer (the handler's
response writes, in order). -/
def runTrace (w : ResponseWriter) : List (Nat × Payload) → ResponseWriter
  | [] => w
  | (s, p) :: rest => runTrace (WriteJson w s p).1 rest

/-! ## Storage: `internal/storage/sqlite`

`Sqlite.CreateStudent` runs `INSERT INTO students (name,email,age)
VALUES(?,?,?)` against a table declared `id INTEGER PRIMARY KEY
AUTOINCREMENT` and returns `LastInsertId()`. The sqlite engine's
AUTOINCREMENT contract assigns each new row an id strictly greater than any
id ever used in the table (never reused); on a fresh table ids start at 1.
The store state below models that contract: `nextId` is one more than the
largest id ever assigned. On any failure the Go method returns `(0, err)`
and no row is inserted. -/

/-- One persisted row of the `students` table. -/
structure StudentRow where
  id : Int
  name : String
  email : String
  age : Int
deriving DecidableEq, Repr

/-- State of the sqlite `students` table. -/
structure SqliteState where
  nextId : Int
  rows : List StudentRow
deriving DecidableEq, Repr

/-- A freshly created table (`sqlite.New` runs the idempotent
`CREATE TABLE IF NOT EXISTS`). -/
def SqliteState.init : SqliteState := ⟨1, []⟩

/-- Well-formedness the sqlite engine maintains: every stored id is below
the next id to be assigned. -/
def SqliteState.WF (st : SqliteState) : Prop :=
  ∀ r ∈ st.rows, r.id < st.nextId

/-- Success path of `Sqlite.CreateStudent`: insert the row, return the
assigned id. -/
def CreateStudent (st : SqliteState) (name email : String) (age : Int) :
    SqliteState × Int :=
  (⟨st.nextId + 1, st.rows ++ [⟨st.nextId, name, email, age⟩]⟩, st.nextId)

/-- A sequence of successful `CreateStudent` calls; returns the final state
and the assigned ids in order. -/
def runCreates (st : SqliteState) :
    List (String × String × Int) → SqliteState × List Int
  | [] => (st, [])
  | (n, e, a) :: rest =>
      let r := CreateStudent st n e a
      let rec' := runCreates r.1 rest
      (rec'.1, r.2 :: rec'.2)

/-- Environment-chosen behaviour of one storage call through the
`storage.Storage` port: the sqlite success path, or a failure (connectivity,
constraint, exhaustion) surfaced as an error value. -/
inductive StorageBehavior
  | succeed
  | fail (e : GoErr)
deriving DecidableEq, Repr

/-- One call to the storage port: returns the updated store and the Go
method's `(int64, error)` pair; on failure the store is untouched and the
returned id is 0 (as `Sqlite.CreateStudent` returns). -/
def storageCall (b : StorageBehavior) (st : SqliteState)
    (name email : String) (age : Int) : SqliteState × Int × Option GoErr :=
  match b with
  | .succeed =>
      let r := CreateStudent st name email age
      (r.1, r.2, none)
  | .fail e => (st, 0, some e)

/-! ## Request handler: `student.New` in `students.go`

The decode step (`json.NewDecoder(r.Body).Decode(&student)`) yields `io.EOF`
on an empty body, some other error on a malformed body, or a `Student`.
The handler is modelled as the ordered list of its `WriteJson` calls plus
the store it leaves behind and the number of storage calls it made. -/

/-- Outcome of decoding the request body. -/
inductive DecodeResult
  /-- empty body: `errors.Is(err, io.EOF)` holds; `err.Error()` is "EOF" -/
  | eofErr
  /-- malformed body: some other decode error with the given message -/
  | otherErr (msg : String)
  /-- a successfully decoded payload -/
  | ok (s : Student)
deriving DecidableEq, Repr

/-- What one request leaves behind: the `WriteJson` calls issued (status and
payload, in order), the resulting store state, and how many times the
storage port was called. -/
structure HandlerResult where
  writes : List (Nat × Payload)
  store : SqliteState
  storageCalls : Nat
deriving DecidableEq, Repr

/-- The handler returned by `student.New(storage)`, applied to one request:
decode, validate (`validator.New().Struct`), persist, respond — exactly the
branch structure of `students.go` lines 24–56, including the fall-through
after the 500 write (the source has no `return` there, so the 201 write with
the returned `lastId` still runs). -/
def handleNew (b : StorageBehavior) (d : DecodeResult) (st : SqliteState) :
    HandlerResult :=
  match d with
  | .eofErr => ⟨[(400, .responseBody (GeneralError "EOF"))], st, 0⟩
  | .otherErr m => ⟨[(400, .responseBody (GeneralError m))], st, 0⟩
  | .ok s =>
      let errs := validateStudent s
      if errs.isEmpty then
        let r := storageCall b st s.name s.email s.age
        match r.2.2 with
        | some e =>
            ⟨[(500, .errBody e), (201, .idBody r.2.1)], r.1, 1⟩
        | none => ⟨[(201, .idBody r.2.1)], r.1, 1⟩
      else ⟨[(400, .responseBody (ValidationError errs))], st, 0⟩

/-! ## Lifecycle coordinator: `main` in the graceful-shutdown entry point

After `<-done` receives the termination signal, `main`'s straight-line code
builds `context.WithTimeout(context.Background(), 5*time.Second)`, calls
`server.Shutdown(ctx)`, logs a non-nil result with `slog.Error` and falls
through to the final info line. But `main` also started the listener on a
separate goroutine (part_002 lines 626-632) whose body checks the result of
`server.ListenAndServe()` with a plain `err != nil` and calls `log.Fatal`
on it. `net/http`'s documented contract: `Shutdown` first closes the open
listener, which makes `ListenAndServe` return `http.ErrServerClosed`
immediately — a non-nil error — so that goroutine's `log.Fatal` runs
`os.Exit(1)` and kills the whole process at the start of the drain, while
the main goroutine is still inside `Shutdown`. Both paths are embedded
below; time is in milliseconds and the drain demand of the in-flight
requests is the model's input. -/

/-- The grace deadline `5 * time.Second` from `main`, in milliseconds. -/
def graceDeadlineMs : Nat := 5000

/-- Model of `server.Shutdown(ctx)` with `ctx` carrying the given timeout,
per `net/http`'s documented contract: returns at `min inflightMs
deadlineMs`; the error is the context's deadline error exactly when the
deadline fires before the in-flight work ends. -/
def serverShutdown (inflightMs deadlineMs : Nat) : Nat × Option String :=
  (min inflightMs deadlineMs,
   if deadlineMs < inflightMs then some "context deadline exceeded" else none)

/-- The error `ListenAndServe` returns as soon as `Shutdown` closes the
listener (`net/http`'s documented contract: `http.ErrServerClosed`,
returned immediately, not after in-flight requests finish). -/
def errServerClosed : String := "http: Server closed"

/-- The listener goroutine's error check (part_002 lines 626-632): every
non-nil `ListenAndServe` result — `ErrServerClosed` included — is passed to
`log.Fatal`, which is `os.Exit(1)`. -/
def listenerGoroutineFatal (res : Option String) : Bool := res.isSome

/-- What the drain sequence leaves behind. -/
structure CoordOutcome where
  /-- when (ms after the signal) the drain actually ended — by `Shutdown`
  returning or by the process being killed -/
  drainEndMs : Nat
  /-- messages passed to `slog.Error` -/
  loggedErrors : List String
  /-- an error thrown/propagated to the caller of the sequence -/
  thrownToCaller : Option String
  /-- whether control reached the final log line after `Shutdown` -/
  reachedEnd : Bool
  /-- whether the listener goroutine's `log.Fatal` (`os.Exit(1)`) killed
  the process -/
  fatalExit : Bool
deriving DecidableEq, Repr

/-- The shutdown sequence of `main` after the termination signal is
received, given how long the in-flight requests still need. Calling
`Shutdown` closes the listener at once, so the listener goroutine's
`ListenAndServe` returns `errServerClosed` and its fatal check kills the
process at drain time 0: in-flight work is abandoned, nothing is logged,
and the else branch — the drain that `main`'s straight-line code would
have performed — is dead code. -/
def mainAfterSignal (inflightMs : Nat) : CoordOutcome :=
  if listenerGoroutineFatal (some errServerClosed) then
    { drainEndMs := 0
      loggedErrors := []
      thrownToCaller := none
      reachedEnd := false
      fatalExit := true }
  else
    let r := serverShutdown inflightMs graceDeadlineMs
    { drainEndMs := r.1
      loggedErrors :=
        match r.2 with
        | some m => ["failed to shut down server: " ++ m]
        | none => []
      thrownToCaller := none
      reachedEnd := true
      fatalExit := false }

/-! ## Helper lemmas: decimal round trip -/

lemma digitVal_digitChar {d : Nat} (h : d < 10) :
    digitVal (digitChar d) = some d := by
  interval_cases d <;> decide

lemma digitChar_ne_minus {d : Nat} (h : d < 10) : digitChar d ≠ '-' := by
  interval_cases d <;> decide

lemma parseNatAux_append (xs : List Char) (acc : Nat) (ys : List Char) :
    parseNatAux acc (xs ++ ys) =
      (parseNatAux acc xs).bind fun a => parseNatAux a ys := by
  induction xs generalizing acc with
  | nil => rfl
  | cons c cs ih =>
      simp only [List.cons_append, parseNatAux]
      cases digitVal c with
      | none => rfl
      | some d => simpa using ih (acc * 10 + d)

lemma natDigitsAux_extra (n : Nat) :
    ∀ fuel₁ fuel₂, n < fuel₁ → n < fuel₂ →
      natDigitsAux fuel₁ n = natDigitsAux fuel₂ n := by
  induction n using Nat.strong_induction_on with
  | _ n ih =>
      intro fuel₁ fuel₂ h₁ h₂
      cases fuel₁ with
      | zero => omega
      | succ f₁ =>
          cases fuel₂ with
          | zero => omega
          | succ f₂ =>
              simp only [natDigitsAux]
              by_cases h : n < 10
              · simp [h]
              · simp only [if_neg h]
                rw [ih (n / 10) (Nat.div_lt_self (by omega) (by omega))
                  f₁ f₂ (by omega) (by omega)]

lemma natDigits_base {n : Nat} (h : n < 10) :
    natDigits n = [digitChar n] := by
  simp [natDigits, natDigitsAux, h]

lemma natDigits_step {n : Nat} (h : ¬ n < 10) :
    natDigits n = natDigits (n / 10) ++ [digitChar (n % 10)] := by
  rw [natDigits, natDigitsAux, if_neg h, natDigits,
    natDigitsAux_extra (n / 10) n (n / 10 + 1) (by omega) (by omega)]

lemma parseNatAux_natDigits (n : Nat) :
    ∀ acc, parseNatAux acc (natDigits n) =
      some (acc * 10 ^ (natDigits n).length + n) := by
  induction n using Nat.strong_induction_on with
  | _ n ih =>
      intro acc
      by_cases h : n < 10
      · rw [natDigits_base h]
        simp [parseNatAux, digitVal_digitChar h]
      · rw [natDigits_step h]
        have hdiv : n / 10 < n := Nat.div_lt_self (by omega) (by omega)
        rw [parseNatAux_append]
        rw [ih (n / 10) hdiv acc]
        simp only [Option.some_bind, parseNatAux,
          digitVal_digitChar (Nat.mod_lt n (by omega)), List.length_append,
          List.length_cons, List.length_nil]
        congr 1
        rw [pow_succ, ← mul_assoc]
        generalize acc * 10 ^ (natDigits (n / 10)).length = A
        omega

lemma natDigits_shape (n : Nat) :
    ∃ d rest, d < 10 ∧ natDigits n = digitChar d :: rest := by
  induction n using Nat.strong_induction_on with
  | _ n ih =>
      by_cases h : n < 10
      · exact ⟨n, [], h, natDigits_base h⟩
      · obtain ⟨d, rest, hd, hrec⟩ :=
          ih (n / 10) (Nat.div_lt_self (by omega) (by omega))
        exact ⟨d, rest ++ [digitChar (n % 10)], hd, by
          rw [natDigits_step h, hrec]; rfl⟩

lemma parseNat_natDigits (n : Nat) : parseNat (natDigits n) = some n := by
  obtain ⟨d, rest, _, hshape⟩ := natDigits_shape n
  have h0 := parseNatAux_natDigits n 0
  rw [hshape] at h0 ⊢
  simpa [parseNat] using h0

lemma parseInt_intRepr (i : Int) : parseInt (intRepr i) = some i := by
  by_cases h : i < 0
  · rw [intRepr, if_pos h]
    have habs : ((i.natAbs : Int)) = -i := by omega
    simp [parseInt, parseNat_natDigits, habs]
  · rw [intRepr, if_neg h]
    obtain ⟨d, rest, hd, hshape⟩ := natDigits_shape i.toNat
    have h0 := parseNat_natDigits i.toNat
    rw [hshape] at h0 ⊢
    have hne : digitChar d ≠ '-' := digitChar_ne_minus hd
    simp [parseInt, hne, h0, Int.toNat_of_nonneg (by omega : (0 : Int) ≤ i)]

lemma stripLeading_append (p l : List Char) :
    stripLeading p (p ++ l) = some l := by
  induction p with
  | nil => rfl
  | cons c cs ih => simp [stripLeading, ih]

lemma stripTrailing_append (sfx l : List Char) :
    stripTrailing sfx (l ++ sfx) = some l := by
  simp [stripTrailing, List.reverse_append, stripLeading_append]

/-! ## Helper lemmas: validator and store -/

lemma ageSeg (a : Int) :
    ((if a = 0 then [(⟨"Age", "required"⟩ : FieldError)]
      else if a < 1 then [⟨"Age", "gte"⟩]
      else if 100 < a then [⟨"Age", "lte"⟩] else []).map (·.field)) =
      (if a < 1 || 100 < a then ["Age"] else []) := by
  by_cases h0 : a = 0
  · subst h0; decide
  · by_cases h1 : a < 1
    · simp [h0, h1]
    · by_cases h2 : 100 < a <;> simp [h0, h1, h2]

/-- The offending fields reported by the validator are exactly the fields
whose own constraints fail — each field is judged independently of the
others (no short-circuit at the first failure). -/
lemma validateStudent_fields (s : Student) :
    (validateStudent s).map (·.field) =
      (if nameViolated s then ["Name"] else []) ++
      (if emailViolated s then ["Email"] else []) ++
      (if ageViolated s then ["Age"] else []) := by
  have hn : ((if s.name = "" then [(⟨"Name", "required"⟩ : FieldError)]
      else []).map (·.field)) = (if nameViolated s then ["Name"] else []) := by
    by_cases h : s.name = "" <;> simp [nameViolated, h]
  have he : ((if s.email = "" then [(⟨"Email", "required"⟩ : FieldError)]
      else if emailOk s.email then [] else [⟨"Email", "email"⟩]).map
        (·.field)) = (if emailViolated s then ["Email"] else []) := by
    by_cases h1 : s.email = ""
    · simp [emailViolated, h1]
    · by_cases h2 : emailOk s.email <;> simp [emailViolated, h1, h2]
  simp only [validateStudent, List.map_append]
  rw [hn, he, ageSeg]
  rfl

lemma runCreates_spec (ops : List (String × String × Int)) :
    ∀ st : SqliteState,
      (∀ i ∈ (runCreates st ops).2, st.nextId ≤ i) ∧
      (runCreates st ops).2.Pairwise (· < ·) ∧
      (runCreates st ops).1.rows.length = st.rows.length + ops.length := by
  induction ops with
  | nil => intro st; simp [runCreates]
  | cons op rest ih =>
      intro st
      obtain ⟨n, e, a⟩ := op
      have hcons : runCreates st ((n, e, a) :: rest) =
          ((runCreates (CreateStudent st n e a).1 rest).1,
            st.nextId :: (runCreates (CreateStudent st n e a).1 rest).2) :=
        rfl
      obtain ⟨hbound, hpw, hlen⟩ := ih (CreateStudent st n e a).1
      have hne : (CreateStudent st n e a).1.nextId = st.nextId + 1 := rfl
      have hrows : (CreateStudent st n e a).1.rows.length =
          st.rows.length + 1 := by simp [CreateStudent]
      rw [hcons]
      refine ⟨?_, ?_, ?_⟩
      · intro i hi
        rcases List.mem_cons.mp hi with h | h
        · exact le_of_eq h.symm
        · have := hbound i h; omega
      · exact List.Pairwise.cons
          (fun b hb => by have := hbound b hb; omega) hpw
      · simp only [List.length_cons]
        omega

/-! ## Claim theorems -/

/-- Claim C1 (code bug): the claim says exactly one status-and-body pair is
written per request on every path. On the decode-error, validation-error and
success paths the handler indeed performs exactly one `WriteJson` call, but
on the storage-error path the missing `return` after the 500 write makes it
perform a second `WriteJson(201, map\x7b"id": 0\x7d)` call: the wire carries
one status line (500) followed by two JSON bodies. -/
theorem c1_storage_error_double_write :
    (handleNew (.fail (.errorString "database is locked"))
        (.ok ⟨"Ann", "ann@x.com", 30⟩) .init).writes =
      [(500, .errBody (.errorString "database is locked")),
       (201, .idBody 0)] ∧
    (runTrace .init (handleNew (.fail (.errorString "database is locked"))
        (.ok ⟨"Ann", "ann@x.com", 30⟩) .init).writes).statusCode =
      some 500 ∧
    (runTrace .init (handleNew (.fail (.errorString "database is locked"))
        (.ok ⟨"Ann", "ann@x.com", 30⟩) .init).writes).body =
      "\x7b\x7d\n\x7b\"id\":0\x7d\n" ∧
    (handleNew .succeed .eofErr .init).writes.length = 1 ∧
    (handleNew .succeed (.otherErr "invalid character") .init).writes.length
      = 1 ∧
    (handleNew .succeed (.ok ⟨"", "bad", 0⟩) .init).writes.length = 1 ∧
    (handleNew .succeed (.ok ⟨"Ann", "ann@x.com", 30⟩) .init).writes.length
      = 1 := by
  decide

/-- Claim C2 counterexample: two distinct storage errors (an exhaustion-style
`SQLITE_BUSY`, code 5, and a constraint failure, code 19) reach the caller
with different 500 bodies, each exposing the driver's numeric codes — not
one fixed generic indication. -/
theorem c2_counterexample :
    (handleNew (.fail (.sqliteErr 5 5 0 "database is locked"))
        (.ok ⟨"Ann", "ann@x.com", 30⟩) .init).writes.head? =
      some (500, .errBody (.sqliteErr 5 5 0 "database is locked")) ∧
    (handleNew (.fail (.sqliteErr 19 787 0 "constraint failed"))
        (.ok ⟨"Ann", "ann@x.com", 30⟩) .init).writes.head? =
      some (500, .errBody (.sqliteErr 19 787 0 "constraint failed")) ∧
    encodePayload (.errBody (.sqliteErr 5 5 0 "database is locked")) =
      some "\x7b\"Code\":5,\"ExtendedCode\":5,\"SystemErrno\":0\x7d\n" ∧
    encodePayload (.errBody (.sqliteErr 5 5 0 "database is locked")) ≠
      encodePayload (.errBody (.sqliteErr 19 787 0 "constraint failed")) := by
  decide

/-- Claim C2 as amended: on a valid payload with a failing storage call, the
500 response body is the `encoding/json` serialization of the raw error
value. Error types without exported fields all collapse to the same empty
object (a generic indication), but error types with exported fields — the
sqlite driver's error codes — are serialized in full, so the body is not
one fixed generic indication across all storage errors. -/
theorem c2_amended_raw_error_body (s : Student) (st : SqliteState)
    (e : GoErr) (h : validateStudent s = []) :
    (handleNew (.fail e) (.ok s) st).writes.head? =
      some (500, .errBody e) ∧
    encodePayload (.errBody e) = some (encodeGoErr e ++ "\n") ∧
    ∀ m₁ m₂ : String,
      encodeGoErr (.errorString m₁) = encodeGoErr (.errorString m₂) := by
  refine ⟨?_, rfl, fun m₁ m₂ => rfl⟩
  simp [handleNew, h, storageCall]

/-- Witness for C2's amended theorem at a concrete valid payload and error. -/
theorem c2_amended_witness :
    validateStudent ⟨"Ann", "ann@x.com", 30⟩ = [] ∧
    (handleNew (.fail (.errorString "db down"))
        (.ok ⟨"Ann", "ann@x.com", 30⟩) SqliteState.init).writes.head? =
      some (500, .errBody (.errorString "db down")) :=
  ⟨by decide,
   (c2_amended_raw_error_body ⟨"Ann", "ann@x.com", 30⟩ SqliteState.init
      (.errorString "db down") (by decide)).1⟩

/-- Claim C3 (code bug): the `"requried"` case in
`response.ValidationError` is misspelled, while the validator's
`ActualTag()` for a missing field is `"required"`; the case is therefore
dead and an empty name is reported with the generic "field Name is invalid"
message instead of the required-specific one. -/
theorem c3_required_case_dead :
    validateStudent ⟨"", "ann@x.com", 30⟩ = [⟨"Name", "required"⟩] ∧
    fieldErrMsg ⟨"Name", "required"⟩ = "field Name is invalid" ∧
    fieldErrMsg ⟨"Name", "requried"⟩ = "field Name is requried filed" ∧
    (handleNew .succeed (.ok ⟨"", "ann@x.com", 30⟩) .init).writes =
      [(400, .responseBody ⟨"Error", "field Name is invalid"⟩)] := by
  decide

/-- Claim C4: when all three fields are invalid at once, the handler still
issues exactly one 400 response carrying the joined violation list, and the
violation list names every offending field — Name, Email and Age — not just
the first. -/
theorem c4_all_violations_reported (s : Student) (b : StorageBehavior)
    (st : SqliteState) (h1 : nameViolated s = true)
    (h2 : emailViolated s = true) (h3 : ageViolated s = true) :
    (handleNew b (.ok s) st).writes =
      [(400, .responseBody (ValidationError (validateStudent s)))] ∧
    (validateStudent s).map (·.field) = ["Name", "Email", "Age"] ∧
    (handleNew b (.ok s) st).storageCalls = 0 := by
  have hfields : (validateStudent s).map (·.field) =
      ["Name", "Email", "Age"] := by
    rw [validateStudent_fields, h1, h2, h3]
    rfl
  have hne : (validateStudent s).isEmpty = false := by
    cases hv : validateStudent s with
    | nil => rw [hv] at hfields; simp at hfields
    | cons a l => rfl
  refine ⟨?_, hfields, ?_⟩ <;> simp [handleNew, hne]

/-- Witness for C4 at the spec's concrete payload
`\x7b"name":"","email":"bad","age":0\x7d`. -/
theorem c4_witness :
    nameViolated ⟨"", "bad", 0⟩ = true ∧
    emailViolated ⟨"", "bad", 0⟩ = true ∧
    ageViolated ⟨"", "bad", 0⟩ = true ∧
    (handleNew .succeed (.ok ⟨"", "bad", 0⟩) SqliteState.init).writes =
      [(400, .responseBody (ValidationError
        (validateStudent ⟨"", "bad", 0⟩)))] ∧
    (validateStudent ⟨"", "bad", 0⟩).map (·.field) =
      ["Name", "Email", "Age"] :=
  ⟨by decide, by decide, by decide,
   (c4_all_violations_reported ⟨"", "bad", 0⟩ .succeed SqliteState.init
      (by decide) (by decide) (by decide)).1,
   (c4_all_violations_reported ⟨"", "bad", 0⟩ .succeed SqliteState.init
      (by decide) (by decide) (by decide)).2.1⟩

/-- Claim C5: `WriteJson` sets the content type and writes the status before
attempting serialization; when serialization fails, the error is returned to
the caller, no body bytes are written, and the already-written status and
content type are exactly those of the pre-encode writes (not retracted). On
a fresh writer the status and content type are visibly set even though the
encode failed. -/
theorem c5_writejson_encode_failure (w : ResponseWriter) (status : Nat)
    (d : Payload) (h : encodePayload d = none) :
    (WriteJson w status d).2 = true ∧
    (WriteJson w status d).1.body = w.body ∧
    (WriteJson w status d).1.statusCode =
      (writeHeader (setContentType w "application/json") status).statusCode ∧
    (WriteJson w status d).1.contentType =
      (setContentType w "application/json").contentType ∧
    (WriteJson ResponseWriter.init status d).1.statusCode = some status ∧
    (WriteJson ResponseWriter.init status d).1.contentType =
      some "application/json" := by
  refine ⟨?_, ?_, ?_, ?_, ?_, ?_⟩ <;>
    simp [WriteJson, h, setContentType, writeHeader, ResponseWriter.init] <;>
    split_ifs <;> rfl

/-- Witness for C5: a payload `encoding/json` cannot represent (the
repository's own test uses a channel), written to a fresh writer. -/
theorem c5_witness :
    encodePayload Payload.unencodable = none ∧
    (WriteJson ResponseWriter.init 500 Payload.unencodable).2 = true ∧
    (WriteJson ResponseWriter.init 500 Payload.unencodable).1.body =
      ResponseWriter.init.body ∧
    (WriteJson ResponseWriter.init 500 Payload.unencodable).1.statusCode =
      some 500 :=
  ⟨rfl,
   (c5_writejson_encode_failure ResponseWriter.init 500 .unencodable rfl).1,
   (c5_writejson_encode_failure ResponseWriter.init 500 .unencodable
      rfl).2.1,
   (c5_writejson_encode_failure ResponseWriter.init 500 .unencodable
      rfl).2.2.2.2.1⟩

/-- Claim C6: over any sequence of successful `CreateStudent` calls on a
well-formed store, the assigned identifiers are strictly increasing in call
order (hence unique), none reuses an identifier of an existing record, and
every call appends exactly one record — so two identical payloads yield two
distinct records with distinct identifiers. -/
theorem c6_ids_monotone_unique_fresh (st : SqliteState)
    (ops : List (String × String × Int)) (hwf : st.WF) :
    (runCreates st ops).2.Pairwise (· < ·) ∧
    (∀ i ∈ (runCreates st ops).2, ∀ r ∈ st.rows, r.id ≠ i) ∧
    (runCreates st ops).1.rows.length = st.rows.length + ops.length := by
  obtain ⟨hbound, hpw, hlen⟩ := runCreates_spec ops st
  refine ⟨hpw, ?_, hlen⟩
  intro i hi r hr
  have h1 := hbound i hi
  have h2 := hwf r hr
  omega

/-- Witness for C6: a fresh store and the spec's scenario of two identical
valid payloads — ids 1 then 2, both new, two records appended. -/
theorem c6_witness :
    SqliteState.init.WF ∧
    (runCreates SqliteState.init
      [("Ann", "ann@x.com", 30), ("Ann", "ann@x.com", 30)]).2.Pairwise
        (· < ·) ∧
    (∀ i ∈ (runCreates SqliteState.init
        [("Ann", "ann@x.com", 30), ("Ann", "ann@x.com", 30)]).2,
      ∀ r ∈ SqliteState.init.rows, r.id ≠ i) ∧
    (runCreates SqliteState.init
        [("Ann", "ann@x.com", 30), ("Ann", "ann@x.com", 30)]).1.rows.length
      = SqliteState.init.rows.length + 2 :=
  ⟨fun r hr => by simp [SqliteState.init] at hr,
   (c6_ids_monotone_unique_fresh SqliteState.init
      [("Ann", "ann@x.com", 30), ("Ann", "ann@x.com", 30)]
      (fun r hr => by simp [SqliteState.init] at hr)).1,
   (c6_ids_monotone_unique_fresh SqliteState.init
      [("Ann", "ann@x.com", 30), ("Ann", "ann@x.com", 30)]
      (fun r hr => by simp [SqliteState.init] at hr)).2.1,
   (c6_ids_monotone_unique_fresh SqliteState.init
      [("Ann", "ann@x.com", 30), ("Ann", "ann@x.com", 30)]
      (fun r hr => by simp [SqliteState.init] at hr)).2.2⟩

/-- Claim C7: an empty request body (`io.EOF` from the decoder) produces
exactly one response write — status 400 with the structured general-error
body — the store is untouched, the storage port is never called, and every
write on this path has status 400 (never 500). -/
theorem c7_empty_body_single_400 (b : StorageBehavior) (st : SqliteState) :
    handleNew b .eofErr st =
      ⟨[(400, .responseBody (GeneralError "EOF"))], st, 0⟩ ∧
    ∀ x ∈ (handleNew b .eofErr st).writes, x.1 = 400 := by
  refine ⟨rfl, ?_⟩
  intro x hx
  simp [handleNew] at hx
  rw [hx]

/-- Claim C8 (code bug): the claim says the drain ends when in-flight work
finishes or the 5-second deadline elapses, whichever is first, and a
deadline overrun is reported by logging while the forced stop proceeds.
In the code, calling `Shutdown` makes the listener goroutine's
`ListenAndServe` return `ErrServerClosed`, a non-nil error, so its
`log.Fatal` check runs `os.Exit(1)`: for every in-flight duration the
process dies at drain time 0 — not at `min inflight deadline` — nothing is
ever logged, and `main`'s code after `Shutdown` is unreachable; in
particular, with 6 seconds of in-flight work the drain does not last to
the 5-second deadline and no overrun is reported. -/
theorem c8_fatal_exit_aborts_drain (inflightMs : Nat) :
    (mainAfterSignal inflightMs).fatalExit = true ∧
    (mainAfterSignal inflightMs).drainEndMs = 0 ∧
    (mainAfterSignal inflightMs).loggedErrors = [] ∧
    (mainAfterSignal inflightMs).reachedEnd = false ∧
    listenerGoroutineFatal (some errServerClosed) = true ∧
    (mainAfterSignal 6000).drainEndMs ≠ min 6000 graceDeadlineMs :=
  ⟨rfl, rfl, rfl, rfl, rfl, by decide⟩

/-- Claim C9: the response encoder serializes the success payload
`\x7b"id": id\x7d` to its exact wire body, and decoding that body recovers
the identifier value exactly, for every integer identifier. -/
theorem c9_id_roundtrip (id : Int) :
    encodePayload (.idBody id) = some (encodeIdBody id) ∧
    decodeIdBody (encodeIdBody id) = some id := by
  refine ⟨rfl, ?_⟩
  have hdata : (encodeIdBody id).data =
      idBodyOpen ++ (intRepr id ++ idBodyClose) := by
    simp [encodeIdBody, idBodyOpen, idBodyClose, String.data_append]
  rw [decodeIdBody, hdata, stripLeading_append]
  simp only [Option.some_bind]
  rw [stripTrailing_append]
  simp only [Option.some_bind]
  exact parseInt_intRepr id

end GoServer
